import Mathlib

/-!
Shallow embedding of `src/openai_tester.py` (class `OpenAITester`).

Each probe (`test_models_list`, `test_chat_completion`, `test_stream_mode`,
`test_function_calling`, `test_embeddings`) is modelled as a pure function
from the outcome of its single HTTP request to the result record it stores.
JSON bodies are modelled structurally: a Python `dict.get(k, d)` on a
possibly-missing key becomes `Option.getD`; a `json.loads` that may raise
becomes `Except String`, carrying the string form of the raised exception;
indexing `[0]` into a possibly-empty list is modelled explicitly, since an
`IndexError` there escapes to the probe's generic `except Exception` handler
(Python renders that exception as "list index out of range").
Wall-clock timestamps (Python floats) are modelled as rationals; the
`response_time` / rounding display fields are not modelled.
-/

/-- Outcome of one HTTP call made by `_make_request`, from the caller's view:
either a response arrived (status code, raw body text, and the probe-specific
decoded body `β`), or an exception was raised.  `msg` is the Python `str` of
the raised exception. -/
inductive Outcome (β : Type) where
  | resp (status : Nat) (text : String) (body : β)
  | timeout
  | connError (msg : String)
  | otherExn (msg : String)
  deriving DecidableEq

/-- Source: `f"HTTP {response.status_code}: {response.text[:200]}"` -/
def httpError (status : Nat) (text : String) : String :=
  "HTTP " ++ toString status ++ ": " ++ text.take 200

/-! ### Models probe (`test_models_list`, lines 56-105) -/

/-- One entry of the `"data"` array of the models listing. -/
structure ModelEntry where
  id : Option String
  deriving DecidableEq

/-- Decoded JSON body of `GET /models`. -/
structure ModelsBody where
  data : Option (List ModelEntry)
  deriving DecidableEq

/-- The result dict stored under `"models_list"`. -/
structure ModelsResult where
  success : Bool
  models : List String
  error : Option String
  deriving DecidableEq

def failModelsResult (m : String) : ModelsResult :=
  { success := false, models := [], error := some m }

/-- Probe `test_models_list` (lines 56-105): on 200, extracts
`[m.get("id", "unknown") for m in data.get("data", [])]`; a `ConnectionError`
is reported with a `"连接错误: "` prefix (line 98), unlike the other probes. -/
def test_models_list (o : Outcome (Except String ModelsBody)) : ModelsResult :=
  match o with
  | .resp status text body =>
    if status = 200 then
      match body with
      | .ok d =>
        { success := true
          models := (d.data.getD []).map (fun m => m.id.getD "unknown")
          error := none }
      | .error m => failModelsResult m
    else failModelsResult (httpError status text)
  | .timeout => failModelsResult "请求超时"
  | .connError m => failModelsResult ("连接错误: " ++ m)
  | .otherExn m => failModelsResult m

/-! ### Chat and tool-calling bodies (`/chat/completions`, non-streaming) -/

structure ToolFunction where
  name : Option String
  arguments : Option String
  deriving DecidableEq

structure ToolCall where
  function : Option ToolFunction
  deriving DecidableEq

structure ChatMessage where
  content : Option String
  tool_calls : Option (List ToolCall)
  deriving DecidableEq

structure ChatChoice where
  message : Option ChatMessage
  deriving DecidableEq

/-- Decoded JSON body of a non-streaming `POST /chat/completions`. -/
structure ChatBody where
  choices : Option (List ChatChoice)
  deriving DecidableEq

def defaultChatMessage : ChatMessage := { content := none, tool_calls := none }

def defaultChatChoice : ChatChoice := { message := none }

def defaultToolFunction : ToolFunction := { name := none, arguments := none }

/-- Models `data.get("choices", [{}])[0].get("message", {})`: the `[0]` raises
`IndexError` when `choices` is present but empty. -/
def headMessage (b : ChatBody) : Except String ChatMessage :=
  match b.choices.getD [defaultChatChoice] with
  | [] => Except.error "list index out of range"
  | c :: _ => Except.ok (c.message.getD defaultChatMessage)

/-- Models `data.get("choices", [{}])[0].get("message", {}).get("content", "")`
(line 150). -/
def chatContent (b : ChatBody) : Except String String :=
  match headMessage b with
  | .ok m => Except.ok (m.content.getD "")
  | .error e => Except.error e

/-- The result dict stored under `"chat_completion"`. -/
structure ChatResult where
  success : Bool
  response : Option String
  error : Option String
  deriving DecidableEq

def failChatResult (m : String) : ChatResult :=
  { success := false, response := none, error := some m }

/-- Probe `test_chat_completion` response handling (lines 143-164). -/
def test_chat_completion (o : Outcome (Except String ChatBody)) : ChatResult :=
  match o with
  | .resp status text body =>
    if status = 200 then
      match body with
      | .ok d =>
        match chatContent d with
        | .ok content => { success := true, response := some content, error := none }
        | .error m => failChatResult m
      | .error m => failChatResult m
    else failChatResult (httpError status text)
  | .timeout => failChatResult "请求超时"
  | .connError m => failChatResult m
  | .otherExn m => failChatResult m

/-- Whether `choices[0].message.content` is actually present in the body
(the spec's notion of "the field is present"). -/
def chatContentPresent (b : ChatBody) : Bool :=
  match b.choices with
  | some (c :: _) =>
    match c.message with
    | some m => m.content.isSome
    | none => false
  | _ => false

/-! ### Tool-calling probe (`test_function_calling`, lines 381-483) -/

/-- The result dict stored under `"function_calling"`. -/
structure ToolResult where
  success : Bool
  tool_called : Bool
  tool_name : Option String
  tool_arguments : Option String
  error : Option String
  deriving DecidableEq

def failToolResult (m : String) : ToolResult :=
  { success := false, tool_called := false, tool_name := none
    tool_arguments := none, error := some m }

/-- Probe `test_function_calling` response handling (lines 441-483):
`tool_calls = message.get("tool_calls", [])`; a non-empty list records the
first call's `function.name` / `function.arguments` (no default: `None` when
missing); otherwise non-empty `content` is a pass with `tool_called=False`,
and an empty/missing `content` is a failure `"未收到有效响应"`. -/
def test_function_calling (o : Outcome (Except String ChatBody)) : ToolResult :=
  match o with
  | .resp status text body =>
    if status = 200 then
      match body with
      | .ok d =>
        match headMessage d with
        | .error m => failToolResult m
        | .ok message =>
          match message.tool_calls.getD [] with
          | tc :: _ =>
            { success := true, tool_called := true
              tool_name := (tc.function.getD defaultToolFunction).name
              tool_arguments := (tc.function.getD defaultToolFunction).arguments
              error := none }
          | [] =>
            if message.content.getD "" ≠ "" then
              { success := true, tool_called := false, tool_name := none
                tool_arguments := none, error := none }
            else failToolResult "未收到有效响应"
      | .error m => failToolResult m
    else failToolResult (httpError status text)
  | .timeout => failToolResult "请求超时"
  | .connError m => failToolResult m
  | .otherExn m => failToolResult m

/-! ### Embeddings probe (`test_embeddings`, lines 485-540) -/

structure EmbEntry where
  embedding : Option (List Rat)
  deriving DecidableEq

/-- Decoded JSON body of `POST /embeddings`. -/
structure EmbBody where
  data : Option (List EmbEntry)
  deriving DecidableEq

def defaultEmbEntry : EmbEntry := { embedding := none }

/-- The result dict stored under `"embeddings"`. -/
structure EmbResult where
  success : Bool
  dimensions : Nat
  error : Option String
  deriving DecidableEq

def failEmbResult (m : String) : EmbResult :=
  { success := false, dimensions := 0, error := some m }

/-- Probe `test_embeddings` response handling (lines 517-537):
`embeddings = data.get("data", [{}])[0].get("embedding", [])`. -/
def test_embeddings (o : Outcome (Except String EmbBody)) : EmbResult :=
  match o with
  | .resp status text body =>
    if status = 200 then
      match body with
      | .ok d =>
        match d.data.getD [defaultEmbEntry] with
        | [] => failEmbResult "list index out of range"
        | e :: _ =>
          { success := true, dimensions := (e.embedding.getD []).length, error := none }
      | .error m => failEmbResult m
    else failEmbResult (httpError status text)
  | .timeout => failEmbResult "请求超时"
  | .connError m => failEmbResult m
  | .otherExn m => failEmbResult m

/-! ### Streaming probe (`test_stream_mode`, lines 169-379)

The body of a 200 streaming response is the sequence of lines yielded by
`response.iter_lines()`, each paired with its arrival time relative to
`start_time` (`current_time - start_time`).  A line is modelled by which of
the source's shape tests it satisfies. -/

/-- JSON delta object `{"content": ...}` inside a streaming choice. -/
structure SDelta where
  content : Option String
  deriving DecidableEq

structure SChoice where
  delta : Option SDelta
  deriving DecidableEq

/-- A decoded streaming JSON payload: `choices[0].delta.content`, or the
top-level `content` / `completion` fields used by the bare-JSON shape. -/
structure SPayload where
  choices : Option (List SChoice)
  content : Option String
  completion : Option String
  deriving DecidableEq

def defaultSDelta : SDelta := { content := none }

def defaultSChoice : SChoice := { delta := none }

/-- The payload after a `"data: "` prefix: the `[DONE]` sentinel
(`data_str.strip() == "[DONE]"`), a JSON object, or malformed JSON
(`json.JSONDecodeError`, silently skipped). -/
inductive DataPayload where
  | done
  | json (p : SPayload)
  | malformed
  deriving DecidableEq

/-- One line from `response.iter_lines()`, classified by the source's
prefix tests in their order: falsy line; `line_str.startswith("data: ")`;
`line_str.startswith("{")` (with `none` for malformed JSON);
`line_str.startswith("event:")`; anything else. -/
inductive RawLine where
  | blank
  | data (p : DataPayload)
  | brace (p : Option SPayload)
  | event
  | other
  deriving DecidableEq

/-- Models `data.get("choices", [{}])[0].get("delta", {}).get("content", "")`
(line 245-246); `IndexError` on an empty `choices` list escapes the
`except json.JSONDecodeError` handler. -/
def dataContent (p : SPayload) : Except String String :=
  match p.choices.getD [defaultSChoice] with
  | [] => Except.error "list index out of range"
  | c :: _ => Except.ok ((c.delta.getD defaultSDelta).content.getD "")

/-- Bare-JSON extraction (lines 259-265): delta content, then top-level
`content`, then top-level `completion`, each tried when the previous one
is empty. -/
def braceContent (p : SPayload) : Except String String :=
  match p.choices.getD [defaultSChoice] with
  | [] => Except.error "list index out of range"
  | c :: _ =>
    let c1 := (c.delta.getD defaultSDelta).content.getD ""
    let c2 := if c1 = "" then p.content.getD "" else c1
    Except.ok (if c2 = "" then p.completion.getD "" else c2)

/-- The loop-local state of the reading loop (lines 219-222, 227-276):
`full_content`, `chunk_count`, `raw_lines` (only its length matters),
`has_done`, `first_chunk_time`, `chunk_times`. -/
structure StreamState where
  fullContent : String
  chunkCount : Nat
  rawLines : Nat
  hasDone : Bool
  firstChunkTime : Option Rat
  chunkTimes : List Rat
  deriving DecidableEq

def initStreamState : StreamState :=
  { fullContent := "", chunkCount := 0, rawLines := 0, hasDone := false
    firstChunkTime := none, chunkTimes := [] }

/-- Source `if content:` — record one fragment (lines 247-252 / 266-271). -/
def recordChunk (st : StreamState) (content : String) (t : Rat) : StreamState :=
  if content = "" then st
  else
    { st with
      firstChunkTime := some (st.firstChunkTime.getD t)
      chunkTimes := st.chunkTimes ++ [t]
      fullContent := st.fullContent ++ content
      chunkCount := st.chunkCount + 1 }

/-- Processing of one non-blank line: appends to `raw_lines`, then
dispatches on the shape.  Returns the new state and whether the loop
breaks (`[DONE]`), or the escaping exception's string form. -/
def streamStep (st : StreamState) (l : RawLine) (t : Rat) :
    Except String (StreamState × Bool) :=
  match l with
  | .blank => Except.ok (st, false)
  | .data dp =>
    match dp with
    | .done => Except.ok ({ st with rawLines := st.rawLines + 1, hasDone := true }, true)
    | .json pl =>
      match dataContent pl with
      | .ok c => Except.ok (recordChunk { st with rawLines := st.rawLines + 1 } c t, false)
      | .error m => Except.error m
    | .malformed => Except.ok ({ st with rawLines := st.rawLines + 1 }, false)
  | .brace po =>
    match po with
    | some pl =>
      match braceContent pl with
      | .ok c => Except.ok (recordChunk { st with rawLines := st.rawLines + 1 } c t, false)
      | .error m => Except.error m
    | none => Except.ok ({ st with rawLines := st.rawLines + 1 }, false)
  | .event => Except.ok ({ st with rawLines := st.rawLines + 1 }, false)
  | .other => Except.ok ({ st with rawLines := st.rawLines + 1 }, false)

/-- The full `for line in response.iter_lines():` loop. -/
def readStream (st : StreamState) : List (RawLine × Rat) → Except String StreamState
  | [] => Except.ok st
  | (l, t) :: rest =>
    match streamStep st l t with
    | .error m => Except.error m
    | .ok (st1, true) => Except.ok st1
    | .ok (st1, false) => readStream st1 rest

/-- Source: `intervals = [chunk_times[i+1] - chunk_times[i] for i in range(len(chunk_times)-1)]`. -/
def gaps : List Rat → List Rat
  | a :: b :: rest => (b - a) :: gaps (b :: rest)
  | _ => []

/-- Source: `avg_interval = sum(intervals) / len(intervals)` (line 291). -/
def meanGap (ts : List Rat) : Rat :=
  (gaps ts).sum / ((gaps ts).length : Rat)

/-- The result dict stored under `"stream_mode"` (fields the classifier
touches; timing display fields omitted). -/
structure StreamResult where
  success : Bool
  chunks_received : Nat
  full_response : String
  error : Option String
  is_real_stream : Bool
  stream_quality : String
  deriving DecidableEq

def initStreamResult : StreamResult :=
  { success := false, chunks_received := 0, full_response := "", error := none
    is_real_stream := false, stream_quality := "unknown" }

/-- The post-read quality analysis (lines 283-335), a pure function of the
final loop state. -/
def classifyStream (st : StreamState) : StreamResult :=
  if 0 < st.chunkCount then
    let r := { initStreamResult with
               chunks_received := st.chunkCount, full_response := st.fullContent }
    if 1 < st.chunkTimes.length then
      if 1 / 100 < meanGap st.chunkTimes ∧ 3 ≤ st.chunkCount then
        { r with is_real_stream := true, stream_quality := "excellent", success := true }
      else if 2 ≤ st.chunkCount then
        { r with is_real_stream := true, stream_quality := "good", success := true }
      else
        { r with stream_quality := "poor", success := true }
    else
      { r with stream_quality := "poor", success := true }
  else if st.fullContent ≠ "" then
    { initStreamResult with
      success := true
      chunks_received := 1
      full_response := st.fullContent
      stream_quality := "non-standard" }
  else if st.hasDone = true ∧ st.rawLines ≤ 2 then
    { initStreamResult with
      error := some "API 返回空流式响应 (只有 [DONE])"
      stream_quality := "not_supported" }
  else
    { initStreamResult with
      error := some "未收到有效的流式数据"
      stream_quality := "unknown" }

/-- Probe `test_stream_mode` (lines 169-379).  The diagnostic non-streaming
follow-up on the zero-fragment path (lines 342-365) only prints and never
changes the stored result, so it is not modelled. -/
def failStreamResult (m : String) : StreamResult :=
  { initStreamResult with error := some m }

def test_stream_mode (o : Outcome (List (RawLine × Rat))) : StreamResult :=
  match o with
  | .resp status text lines =>
    if status = 200 then
      match readStream initStreamState lines with
      | .ok st => classifyStream st
      | .error m => failStreamResult m
    else failStreamResult (httpError status text)
  | .timeout => failStreamResult "请求超时"
  | .connError m => failStreamResult m
  | .otherExn m => failStreamResult m

/-! ### Orchestrator result store (`test_single_model`, lines 688-714) -/

/-- The orchestrator's `self.results` map, one optional entry per key the
source writes. -/
structure ResultStore where
  models_list : Option ModelsResult
  chat_completion : Option ChatResult
  stream_mode : Option StreamResult
  function_calling : Option ToolResult
  embeddings : Option EmbResult
  tested_model : Option String
  deriving DecidableEq

/-- Lines 693-695: `self.results = {"models_list": models_list,
"tested_model": model}` — a fresh dict keeping only the models-list entry. -/
def resetResultsForModel (s : ResultStore) (model : String) : ResultStore :=
  { models_list := s.models_list, tested_model := some model
    chat_completion := none, stream_mode := none
    function_calling := none, embeddings := none }

/-- Function `test_single_model` (lines 688-714): reset the store, then run the chat,
streaming and tool-calling probes, each storing its result. -/
def test_single_model (s : ResultStore) (model : String)
    (chatO : Outcome (Except String ChatBody))
    (streamO : Outcome (List (RawLine × Rat)))
    (toolO : Outcome (Except String ChatBody)) : ResultStore :=
  let s1 := resetResultsForModel s model
  let s2 := { s1 with chat_completion := some (test_chat_completion chatO) }
  let s3 := { s2 with stream_mode := some (test_stream_mode streamO) }
  { s3 with function_calling := some (test_function_calling toolO) }

/-! ### Helper lemmas about the streaming loop -/

/-- Loop invariant: one timestamp is recorded per counted chunk, and
content accumulates only together with counted chunks. -/
def StreamInv (st : StreamState) : Prop :=
  st.chunkTimes.length = st.chunkCount ∧ (st.chunkCount = 0 → st.fullContent = "")

theorem streamInv_init : StreamInv initStreamState :=
  ⟨rfl, fun _ => rfl⟩

theorem recordChunk_inv (st : StreamState) (c : String) (t : Rat)
    (h : StreamInv st) : StreamInv (recordChunk st c t) := by
  unfold recordChunk
  split
  · exact h
  · exact ⟨by simp [h.1], by simp⟩

theorem streamStep_inv (st : StreamState) (l : RawLine) (t : Rat)
    (st' : StreamState) (b : Bool)
    (h : streamStep st l t = Except.ok (st', b))
    (hinv : StreamInv st) : StreamInv st' := by
  have hraw : ∀ s : StreamState, StreamInv s →
      StreamInv { s with rawLines := s.rawLines + 1 } := fun s hs => hs
  cases l with
  | blank =>
    simp only [streamStep, Except.ok.injEq, Prod.mk.injEq] at h
    rw [← h.1]; exact hinv
  | data dp =>
    cases dp with
    | done =>
      simp only [streamStep, Except.ok.injEq, Prod.mk.injEq] at h
      rw [← h.1]; exact hinv
    | json pl =>
      cases hdc : dataContent pl with
      | ok c =>
        simp only [streamStep, hdc, Except.ok.injEq, Prod.mk.injEq] at h
        rw [← h.1]
        exact recordChunk_inv _ c t (hraw st hinv)
      | error m => simp [streamStep, hdc] at h
    | malformed =>
      simp only [streamStep, Except.ok.injEq, Prod.mk.injEq] at h
      rw [← h.1]; exact hinv
  | brace po =>
    cases po with
    | some pl =>
      cases hdc : braceContent pl with
      | ok c =>
        simp only [streamStep, hdc, Except.ok.injEq, Prod.mk.injEq] at h
        rw [← h.1]
        exact recordChunk_inv _ c t (hraw st hinv)
      | error m => simp [streamStep, hdc] at h
    | none =>
      simp only [streamStep, Except.ok.injEq, Prod.mk.injEq] at h
      rw [← h.1]; exact hinv
  | event =>
    simp only [streamStep, Except.ok.injEq, Prod.mk.injEq] at h
    rw [← h.1]; exact hinv
  | other =>
    simp only [streamStep, Except.ok.injEq, Prod.mk.injEq] at h
    rw [← h.1]; exact hinv

theorem readStream_inv (lines : List (RawLine × Rat)) (st st' : StreamState)
    (h : readStream st lines = Except.ok st') (hinv : StreamInv st) :
    StreamInv st' := by
  induction lines generalizing st with
  | nil =>
    simp only [readStream, Except.ok.injEq] at h
    rw [← h]; exact hinv
  | cons p rest ih =>
    obtain ⟨l, t⟩ := p
    simp only [readStream] at h
    cases hs : streamStep st l t with
    | error m => rw [hs] at h; simp at h
    | ok pr =>
      obtain ⟨st1, b⟩ := pr
      rw [hs] at h
      cases b with
      | true =>
        simp only [Except.ok.injEq] at h
        rw [← h]
        exact streamStep_inv st l t st1 true hs hinv
      | false =>
        exact ih st1 h (streamStep_inv st l t st1 false hs hinv)

/-- Evaluation of the streaming probe on a 200 response whose read completes. -/
theorem test_stream_mode_ok (lines : List (RawLine × Rat)) (text : String)
    (st : StreamState) (h : readStream initStreamState lines = Except.ok st) :
    test_stream_mode (Outcome.resp 200 text lines) = classifyStream st := by
  simp [test_stream_mode, h]


/-! ### Evaluation lemmas for each branch of the classifier -/

theorem classifyStream_excellent (st : StreamState)
    (h0 : 0 < st.chunkCount) (hlen : 1 < st.chunkTimes.length)
    (hc : 1 / 100 < meanGap st.chunkTimes ∧ 3 ≤ st.chunkCount) :
    classifyStream st =
      { initStreamResult with
        chunks_received := st.chunkCount, full_response := st.fullContent
        is_real_stream := true, stream_quality := "excellent", success := true } := by
  unfold classifyStream
  rw [if_pos h0, if_pos hlen, if_pos hc]

theorem classifyStream_good (st : StreamState)
    (h0 : 0 < st.chunkCount) (hlen : 1 < st.chunkTimes.length)
    (hnc : ¬(1 / 100 < meanGap st.chunkTimes ∧ 3 ≤ st.chunkCount))
    (h2 : 2 ≤ st.chunkCount) :
    classifyStream st =
      { initStreamResult with
        chunks_received := st.chunkCount, full_response := st.fullContent
        is_real_stream := true, stream_quality := "good", success := true } := by
  unfold classifyStream
  rw [if_pos h0, if_pos hlen, if_neg hnc, if_pos h2]

theorem classifyStream_poor (st : StreamState)
    (h0 : 0 < st.chunkCount) (hlen : ¬1 < st.chunkTimes.length) :
    classifyStream st =
      { initStreamResult with
        chunks_received := st.chunkCount, full_response := st.fullContent
        stream_quality := "poor", success := true } := by
  unfold classifyStream
  rw [if_pos h0, if_neg hlen]

theorem classifyStream_not_supported (st : StreamState)
    (hc0 : st.chunkCount = 0) (hfull : st.fullContent = "")
    (hd : st.hasDone = true ∧ st.rawLines ≤ 2) :
    classifyStream st =
      { initStreamResult with
        error := some "API 返回空流式响应 (只有 [DONE])"
        stream_quality := "not_supported" } := by
  unfold classifyStream
  rw [if_neg (by omega), if_neg (by simp [hfull]), if_pos hd]

theorem classifyStream_unknown (st : StreamState)
    (hc0 : st.chunkCount = 0) (hfull : st.fullContent = "")
    (hnd : ¬(st.hasDone = true ∧ st.rawLines ≤ 2)) :
    classifyStream st =
      { initStreamResult with
        error := some "未收到有效的流式数据"
        stream_quality := "unknown" } := by
  unfold classifyStream
  rw [if_neg (by omega), if_neg (by simp [hfull]), if_neg hnd]

/-! ### Streaming claim theorems -/

/-- A streaming payload carrying one delta content fragment, as in
`data: {"choices":[{"delta":{"content": c}}]}`. -/
def fragPayload (c : String) : SPayload :=
  { choices := some [{ delta := some { content := some c } }]
    content := none, completion := none }

/-- A shape-(a) line `data: <json>` carrying one fragment. -/
def dataFragLine (c : String) : RawLine :=
  RawLine.data (DataPayload.json (fragPayload c))

/-- Example stream: 5 fragments with uniform 50 ms spacing. -/
def ex5Lines : List (RawLine × Rat) :=
  [(dataFragLine "1", 0), (dataFragLine "2", 1/20), (dataFragLine "3", 1/10),
   (dataFragLine "4", 3/20), (dataFragLine "5", 1/5)]

/-- Loop state after reading `ex5Lines`. -/
def ex5St : StreamState :=
  { fullContent := "12345", chunkCount := 5, rawLines := 5, hasDone := false
    firstChunkTime := some 0, chunkTimes := [0, 1/20, 1/10, 3/20, 1/5] }

theorem ex5_read : readStream initStreamState ex5Lines = Except.ok ex5St := rfl

theorem ex5_meanGap : 1 / 100 < meanGap ex5St.chunkTimes := by
  norm_num [meanGap, gaps, ex5St]

/-- C1: for a completed 200 streaming read recovering N ≥ 3 fragments, quality
`excellent` together with `is_real_stream=true` holds exactly when the mean
inter-arrival gap of the fragment timestamps exceeds 10 ms (0.01 s); with
N ≥ 3 and mean gap ≤ 10 ms the quality is `good` instead. -/
theorem stream_excellent_iff_mean_gap (lines : List (RawLine × Rat))
    (text : String) (st : StreamState)
    (h : readStream initStreamState lines = Except.ok st)
    (h3 : 3 ≤ st.chunkCount) :
    (((test_stream_mode (Outcome.resp 200 text lines)).stream_quality = "excellent" ∧
      (test_stream_mode (Outcome.resp 200 text lines)).is_real_stream = true) ↔
      1 / 100 < meanGap st.chunkTimes) ∧
    (meanGap st.chunkTimes ≤ 1 / 100 →
      (test_stream_mode (Outcome.resp 200 text lines)).stream_quality = "good") := by
  have hinv := readStream_inv lines initStreamState st h streamInv_init
  have h0 : 0 < st.chunkCount := by omega
  have hlen : 1 < st.chunkTimes.length := by rw [hinv.1]; omega
  rw [test_stream_mode_ok lines text st h]
  by_cases hm : 1 / 100 < meanGap st.chunkTimes
  · rw [classifyStream_excellent st h0 hlen ⟨hm, h3⟩]
    exact ⟨Iff.intro (fun _ => hm) (fun _ => ⟨rfl, rfl⟩),
           fun hle => absurd hm (not_lt.mpr hle)⟩
  · rw [classifyStream_good st h0 hlen (fun hc => hm hc.1) (by omega)]
    exact ⟨Iff.intro (fun hq => absurd hq.1 (by simp)) (fun hgt => absurd hgt hm),
           fun _ => rfl⟩

/-- Witness for C1: 5 fragments with uniform 50 ms spacing are classified
`excellent` with `is_real_stream=true`. -/
theorem stream_excellent_iff_mean_gap_witness :
    (test_stream_mode (Outcome.resp 200 "" ex5Lines)).stream_quality = "excellent" ∧
    (test_stream_mode (Outcome.resp 200 "" ex5Lines)).is_real_stream = true :=
  (stream_excellent_iff_mean_gap ex5Lines "" ex5St ex5_read (by decide)).1.mpr
    ex5_meanGap

/-- Example stream: a single fragment. -/
def oneFragLines : List (RawLine × Rat) := [(dataFragLine "1", 1/10)]

/-- Loop state after reading `oneFragLines`. -/
def oneFragSt : StreamState :=
  { fullContent := "1", chunkCount := 1, rawLines := 1, hasDone := false
    firstChunkTime := some (1/10), chunkTimes := [1/10] }

theorem oneFrag_read : readStream initStreamState oneFragLines = Except.ok oneFragSt := rfl

/-- C4: a completed 200 streaming read recovering exactly one content fragment
passes with quality `poor`. -/
theorem stream_one_fragment_poor (lines : List (RawLine × Rat)) (text : String)
    (st : StreamState)
    (h : readStream initStreamState lines = Except.ok st)
    (h1 : st.chunkCount = 1) :
    (test_stream_mode (Outcome.resp 200 text lines)).success = true ∧
    (test_stream_mode (Outcome.resp 200 text lines)).stream_quality = "poor" := by
  have hinv := readStream_inv lines initStreamState st h streamInv_init
  rw [test_stream_mode_ok lines text st h,
      classifyStream_poor st (by omega) (by rw [hinv.1]; omega)]
  exact ⟨rfl, rfl⟩

/-- Witness for C4: one `data:` fragment at 100 ms. -/
theorem stream_one_fragment_poor_witness :
    (test_stream_mode (Outcome.resp 200 "" oneFragLines)).success = true ∧
    (test_stream_mode (Outcome.resp 200 "" oneFragLines)).stream_quality = "poor" :=
  stream_one_fragment_poor oneFragLines "" oneFragSt oneFrag_read rfl

/-- Example stream: only the `data: [DONE]` sentinel line. -/
def doneOnlyLines : List (RawLine × Rat) := [(RawLine.data DataPayload.done, 0)]

/-- Loop state after reading `doneOnlyLines`. -/
def doneOnlySt : StreamState :=
  { fullContent := "", chunkCount := 0, rawLines := 1, hasDone := true
    firstChunkTime := none, chunkTimes := [] }

theorem doneOnly_read : readStream initStreamState doneOnlyLines = Except.ok doneOnlySt := rfl

/-- C3: a completed 200 streaming read recovering zero content fragments is a
failure; with the `[DONE]` sentinel seen and at most 2 raw lines the quality is
`not_supported`, otherwise it is `unknown`. -/
theorem stream_zero_fragments (lines : List (RawLine × Rat)) (text : String)
    (st : StreamState)
    (h : readStream initStreamState lines = Except.ok st)
    (h0 : st.chunkCount = 0) :
    (test_stream_mode (Outcome.resp 200 text lines)).success = false ∧
    (st.hasDone = true ∧ st.rawLines ≤ 2 →
      (test_stream_mode (Outcome.resp 200 text lines)).stream_quality = "not_supported") ∧
    (¬(st.hasDone = true ∧ st.rawLines ≤ 2) →
      (test_stream_mode (Outcome.resp 200 text lines)).stream_quality = "unknown") := by
  have hinv := readStream_inv lines initStreamState st h streamInv_init
  have hfull : st.fullContent = "" := hinv.2 h0
  rw [test_stream_mode_ok lines text st h]
  by_cases hd : st.hasDone = true ∧ st.rawLines ≤ 2
  · rw [classifyStream_not_supported st h0 hfull hd]
    exact ⟨rfl, fun _ => rfl, fun hnd => absurd hd hnd⟩
  · rw [classifyStream_unknown st h0 hfull hd]
    exact ⟨rfl, fun hd2 => absurd hd2 hd, fun _ => rfl⟩

/-- Witness for C3: a stream consisting of exactly one `[DONE]` line is a
failure labeled `not_supported`. -/
theorem stream_zero_fragments_witness :
    (test_stream_mode (Outcome.resp 200 "" doneOnlyLines)).success = false ∧
    (test_stream_mode (Outcome.resp 200 "" doneOnlyLines)).stream_quality = "not_supported" :=
  ⟨(stream_zero_fragments doneOnlyLines "" doneOnlySt doneOnly_read rfl).1,
   (stream_zero_fragments doneOnlyLines "" doneOnlySt doneOnly_read rfl).2.1
     (by exact ⟨rfl, by decide⟩)⟩

/-- Example stream: two fragments arriving at the same instant. -/
def twoFragLines : List (RawLine × Rat) := [(dataFragLine "a", 0), (dataFragLine "b", 0)]

/-- Loop state after reading `twoFragLines`. -/
def twoFragSt : StreamState :=
  { fullContent := "ab", chunkCount := 2, rawLines := 2, hasDone := false
    firstChunkTime := some 0, chunkTimes := [0, 0] }

theorem twoFrag_read : readStream initStreamState twoFragLines = Except.ok twoFragSt := rfl

/-- C10: a completed 200 streaming read sets `is_real_stream=true` whenever at
least two fragments were recovered (the `good` cases included), and
`is_real_stream=false` whenever zero or one fragment was recovered. -/
theorem stream_is_real_stream_chunk_threshold (lines : List (RawLine × Rat))
    (text : String) (st : StreamState)
    (h : readStream initStreamState lines = Except.ok st) :
    (2 ≤ st.chunkCount →
      (test_stream_mode (Outcome.resp 200 text lines)).is_real_stream = true) ∧
    (st.chunkCount ≤ 1 →
      (test_stream_mode (Outcome.resp 200 text lines)).is_real_stream = false) := by
  have hinv := readStream_inv lines initStreamState st h streamInv_init
  rw [test_stream_mode_ok lines text st h]
  constructor
  · intro h2
    have h0 : 0 < st.chunkCount := by omega
    have hlen : 1 < st.chunkTimes.length := by rw [hinv.1]; omega
    by_cases hc : 1 / 100 < meanGap st.chunkTimes ∧ 3 ≤ st.chunkCount
    · rw [classifyStream_excellent st h0 hlen hc]
    · rw [classifyStream_good st h0 hlen hc h2]
  · intro h1
    rcases Nat.le_one_iff_eq_zero_or_eq_one.mp h1 with h0 | h0
    · have hfull : st.fullContent = "" := hinv.2 h0
      by_cases hd : st.hasDone = true ∧ st.rawLines ≤ 2
      · rw [classifyStream_not_supported st h0 hfull hd]; rfl
      · rw [classifyStream_unknown st h0 hfull hd]; rfl
    · rw [classifyStream_poor st (by omega) (by rw [hinv.1]; omega)]; rfl

/-- Witness for C10: two same-instant fragments still yield
`is_real_stream=true` (the `good` case). -/
theorem stream_is_real_stream_chunk_threshold_witness :
    (test_stream_mode (Outcome.resp 200 "" twoFragLines)).is_real_stream = true :=
  (stream_is_real_stream_chunk_threshold twoFragLines "" twoFragSt twoFrag_read).1
    (by decide)

/-! ### Shape (b) fragments and the unreachable non-standard label -/

/-- A shape-(b) line: a bare JSON object carrying one delta content fragment. -/
def braceFragLine (c : String) : RawLine :=
  RawLine.brace (some (fragPayload c))

/-- C2 counterexample: a stream whose single content fragment arrives via
shape (b) only (a bare JSON line, no `data:` framing) is labeled `poor` by the
count/timing rules, not `non-standard`. -/
theorem stream_brace_only_labeled_poor :
    (test_stream_mode (Outcome.resp 200 ""
      [(braceFragLine "hello", 0)])).stream_quality = "poor" ∧
    (test_stream_mode (Outcome.resp 200 ""
      [(braceFragLine "hello", 0)])).stream_quality ≠ "non-standard" := by
  constructor
  · rfl
  · intro hq
    have : "poor" = "non-standard" := by
      calc "poor" = (test_stream_mode (Outcome.resp 200 ""
            [(braceFragLine "hello", 0)])).stream_quality := rfl
        _ = "non-standard" := hq
    simp at this

theorem classifyStream_never_nonstandard (st : StreamState) (hinv : StreamInv st) :
    (classifyStream st).stream_quality ≠ "non-standard" := by
  by_cases h0 : 0 < st.chunkCount
  · by_cases hlen : 1 < st.chunkTimes.length
    · by_cases hc : 1 / 100 < meanGap st.chunkTimes ∧ 3 ≤ st.chunkCount
      · rw [classifyStream_excellent st h0 hlen hc]; simp
      · by_cases h2 : 2 ≤ st.chunkCount
        · rw [classifyStream_good st h0 hlen hc h2]; simp
        · unfold classifyStream
          rw [if_pos h0, if_pos hlen, if_neg hc, if_neg h2]; simp
    · rw [classifyStream_poor st h0 hlen]; simp
  · have hc0 : st.chunkCount = 0 := by omega
    have hfull : st.fullContent = "" := hinv.2 hc0
    by_cases hd : st.hasDone = true ∧ st.rawLines ≤ 2
    · rw [classifyStream_not_supported st hc0 hfull hd]; simp [initStreamResult]
    · rw [classifyStream_unknown st hc0 hfull hd]; simp [initStreamResult]

/-- One fragment framed as shape (a): `data: {"choices":[{"delta":...}]}`. -/
def dataFraming (frags : List (String × Rat)) : List (RawLine × Rat) :=
  frags.map (fun p => (dataFragLine p.1, p.2))

/-- The same fragments framed as shape (b): bare JSON object lines. -/
def braceFraming (frags : List (String × Rat)) : List (RawLine × Rat) :=
  frags.map (fun p => (braceFragLine p.1, p.2))

theorem fragPayload_content (c : String) :
    dataContent (fragPayload c) = Except.ok c ∧
    braceContent (fragPayload c) = Except.ok c := by
  by_cases hc : c = "" <;>
    simp [dataContent, braceContent, fragPayload, defaultSChoice, defaultSDelta, hc]

theorem readStream_brace_eq_data (frags : List (String × Rat)) (st : StreamState) :
    readStream st (braceFraming frags) = readStream st (dataFraming frags) := by
  induction frags generalizing st with
  | nil => rfl
  | cons p rest ih =>
    obtain ⟨c, t⟩ := p
    show readStream st ((braceFragLine c, t) :: braceFraming rest) =
      readStream st ((dataFragLine c, t) :: dataFraming rest)
    simp only [readStream, streamStep, braceFragLine, dataFragLine,
      (fragPayload_content c).1, (fragPayload_content c).2]
    exact ih _

/-- C2 (amended): fragments recovered via shape (b) are recorded and
classified exactly like shape-(a) fragments, by the count/timing rules; the
`non-standard` quality label is unreachable — no streaming-probe outcome is
ever labeled `non-standard`. -/
theorem stream_shape_b_classified_like_shape_a :
    (∀ o : Outcome (List (RawLine × Rat)),
      (test_stream_mode o).stream_quality ≠ "non-standard") ∧
    (∀ frags : List (String × Rat), ∀ text : String,
      test_stream_mode (Outcome.resp 200 text (braceFraming frags)) =
      test_stream_mode (Outcome.resp 200 text (dataFraming frags))) := by
  constructor
  · intro o
    cases o with
    | resp status text lines =>
      by_cases hs : status = 200
      · subst hs
        cases hr : readStream initStreamState lines with
        | ok st =>
          rw [test_stream_mode_ok lines text st hr]
          exact classifyStream_never_nonstandard st
            (readStream_inv lines initStreamState st hr streamInv_init)
        | error m =>
          simp [test_stream_mode, hr, failStreamResult, initStreamResult]
      · simp [test_stream_mode, hs, failStreamResult, initStreamResult]
    | timeout => simp [test_stream_mode, failStreamResult, initStreamResult]
    | connError m => simp [test_stream_mode, failStreamResult, initStreamResult]
    | otherExn m => simp [test_stream_mode, failStreamResult, initStreamResult]
  · intro frags text
    simp only [test_stream_mode, readStream_brace_eq_data]

/-! ### Chat-probe claim theorems -/

/-- C5 counterexample: a 200 response whose JSON body is the empty object —
so `choices[0].message.content` is not present — still yields `success=true`
(with an empty extracted response), because every lookup in the chain uses a
default. -/
theorem chat_success_without_content_field :
    (test_chat_completion (Outcome.resp 200 ""
      (Except.ok { choices := none }))).success = true ∧
    chatContentPresent { choices := none } = false ∧
    (test_chat_completion (Outcome.resp 200 ""
      (Except.ok { choices := none }))).response = some "" := by
  exact ⟨rfl, rfl, rfl⟩

/-- C5 (amended): the chat probe reports `success=true` iff the HTTP status is
200, the body parses as JSON, and the defaulted extraction of
`choices[0].message.content` does not raise (i.e. `choices`, when present, is
non-empty); the field itself need not be present — a missing or empty field
still counts as success, with an empty-string response. -/
theorem chat_success_iff_extraction (o : Outcome (Except String ChatBody)) :
    (test_chat_completion o).success = true ↔
    (∃ text b s, o = Outcome.resp 200 text (Except.ok b) ∧
      chatContent b = Except.ok s) := by
  cases o with
  | resp status text body =>
    by_cases hs : status = 200
    · subst hs
      cases body with
      | ok d =>
        cases hc : chatContent d with
        | ok s =>
          simp only [test_chat_completion, if_pos rfl, hc]
          constructor
          · intro _; exact ⟨text, d, s, rfl, hc⟩
          · intro _; rfl
        | error m =>
          simp only [test_chat_completion, if_pos rfl, hc, failChatResult]
          constructor
          · intro hfalse; cases hfalse
          · rintro ⟨text2, b2, s2, heq, hok⟩
            obtain ⟨-, -, hb⟩ := Outcome.resp.inj heq
            obtain hb2 := Except.ok.inj hb
            rw [← hb2, hc] at hok
            cases hok
      | error m =>
        simp only [test_chat_completion, if_pos rfl, failChatResult]
        constructor
        · intro hfalse; cases hfalse
        · rintro ⟨text2, b2, s2, heq, -⟩
          obtain ⟨-, -, hb⟩ := Outcome.resp.inj heq
          cases hb
    · simp only [test_chat_completion, if_neg hs, failChatResult]
      constructor
      · intro hfalse; cases hfalse
      · rintro ⟨text2, b2, s2, heq, -⟩
        obtain ⟨hstat, -, -⟩ := Outcome.resp.inj heq
        exact absurd hstat hs
  | timeout =>
    constructor
    · intro hfalse; cases hfalse
    · rintro ⟨text2, b2, s2, heq, -⟩; cases heq
  | connError m =>
    constructor
    · intro hfalse; cases hfalse
    · rintro ⟨text2, b2, s2, heq, -⟩; cases heq
  | otherExn m =>
    constructor
    · intro hfalse; cases hfalse
    · rintro ⟨text2, b2, s2, heq, -⟩; cases heq

/-! ### Tool-calling claim theorem -/

/-- C6: on a 200 tool-probe response whose message extraction succeeds: a
non-empty `tool_calls` array is a pass with `tool_called=true` recording the
first call's function name and raw argument string; otherwise non-empty
ordinary content is a pass with `tool_called=false`; and neither tool calls
nor content is a failure with a non-null error. -/
theorem tool_calling_classification (text : String) (b : ChatBody)
    (msg : ChatMessage) (hmsg : headMessage b = Except.ok msg) :
    (∀ tc l, msg.tool_calls = some (tc :: l) →
      (test_function_calling (Outcome.resp 200 text (Except.ok b))).success = true ∧
      (test_function_calling (Outcome.resp 200 text (Except.ok b))).tool_called = true ∧
      (test_function_calling (Outcome.resp 200 text (Except.ok b))).tool_name =
        (tc.function.getD defaultToolFunction).name ∧
      (test_function_calling (Outcome.resp 200 text (Except.ok b))).tool_arguments =
        (tc.function.getD defaultToolFunction).arguments) ∧
    (msg.tool_calls.getD [] = [] → msg.content.getD "" ≠ "" →
      (test_function_calling (Outcome.resp 200 text (Except.ok b))).success = true ∧
      (test_function_calling (Outcome.resp 200 text (Except.ok b))).tool_called = false) ∧
    (msg.tool_calls.getD [] = [] → msg.content.getD "" = "" →
      (test_function_calling (Outcome.resp 200 text (Except.ok b))).success = false ∧
      (test_function_calling (Outcome.resp 200 text (Except.ok b))).error ≠ none) := by
  refine ⟨?_, ?_, ?_⟩
  · intro tc l htc
    simp only [test_function_calling, if_pos rfl, hmsg, htc, Option.getD_some]
    exact ⟨rfl, rfl, rfl, rfl⟩
  · intro hnot hcont
    simp only [test_function_calling, if_pos rfl, hmsg, hnot, if_pos hcont]
    exact ⟨rfl, rfl⟩
  · intro hnot hcont
    have hncont : ¬msg.content.getD "" ≠ "" := fun hn => hn hcont
    simp only [test_function_calling, if_pos rfl, hmsg, hnot, if_neg hncont,
      failToolResult]
    exact ⟨rfl, by simp⟩

/-- Scenario-C tool call: `get_weather` with a raw argument string. -/
def scenarioCFunction : ToolFunction :=
  { name := some "get_weather", arguments := some "city: Beijing" }

/-- Scenario-C response message: one tool call, no ordinary content. -/
def scenarioCMessage : ChatMessage :=
  { content := none, tool_calls := some [{ function := some scenarioCFunction }] }

/-- Scenario-C tool response body. -/
def scenarioCBody : ChatBody :=
  { choices := some [{ message := some scenarioCMessage }] }

/-- Witness for C6: the Scenario-C body yields a pass with `tool_called=true`
and the recorded function name. -/
theorem tool_calling_classification_witness :
    (test_function_calling (Outcome.resp 200 "" (Except.ok scenarioCBody))).success = true ∧
    (test_function_calling (Outcome.resp 200 "" (Except.ok scenarioCBody))).tool_called = true ∧
    (test_function_calling (Outcome.resp 200 "" (Except.ok scenarioCBody))).tool_name =
      some "get_weather" :=
  ⟨((tool_calling_classification "" scenarioCBody scenarioCMessage rfl).1 _ [] rfl).1,
   ((tool_calling_classification "" scenarioCBody scenarioCMessage rfl).1 _ [] rfl).2.1,
   ((tool_calling_classification "" scenarioCBody scenarioCMessage rfl).1 _ [] rfl).2.2.1⟩

/-! ### Error-reporting claim theorems -/

/-- C7 counterexample: in the models probe a `ConnectionError` is reported as
`"连接错误: <str(e)>"`, not as the exception's string form itself (lines
97-99); the other probes have no such branch. -/
theorem models_connection_error_prefixed :
    (test_models_list (Outcome.connError "boom")).success = false ∧
    (test_models_list (Outcome.connError "boom")).error = some ("连接错误: " ++ "boom") ∧
    (test_models_list (Outcome.connError "boom")).error ≠ some "boom" := by
  refine ⟨rfl, rfl, ?_⟩
  intro hq
  have h2 : some ("连接错误: " ++ "boom" : String) = some "boom" := hq
  simp at h2

set_option maxRecDepth 4000 in
/-- C7 (amended): every probe converts failures to a returned result record:
a timeout yields `success=false` with error `"请求超时"`; a non-200 status
yields the error `"HTTP <code>: <first 200 characters of body>"`; any other
exception yields the exception's string form — except that the models probe
prefixes a connection error with `"连接错误: "` (the other four probes report
a connection error by its string form, via their generic handler). -/
theorem probe_error_reporting :
    ((test_models_list Outcome.timeout = failModelsResult "请求超时") ∧
     (test_chat_completion Outcome.timeout = failChatResult "请求超时") ∧
     (test_stream_mode Outcome.timeout = failStreamResult "请求超时") ∧
     (test_function_calling Outcome.timeout = failToolResult "请求超时") ∧
     (test_embeddings Outcome.timeout = failEmbResult "请求超时")) ∧
    ((∀ (status : Nat) (text : String) (body : Except String ModelsBody),
        status ≠ 200 → test_models_list (Outcome.resp status text body) =
          failModelsResult (httpError status text)) ∧
     (∀ (status : Nat) (text : String) (body : Except String ChatBody),
        status ≠ 200 → test_chat_completion (Outcome.resp status text body) =
          failChatResult (httpError status text)) ∧
     (∀ (status : Nat) (text : String) (lines : List (RawLine × Rat)),
        status ≠ 200 → test_stream_mode (Outcome.resp status text lines) =
          failStreamResult (httpError status text)) ∧
     (∀ (status : Nat) (text : String) (body : Except String ChatBody),
        status ≠ 200 → test_function_calling (Outcome.resp status text body) =
          failToolResult (httpError status text)) ∧
     (∀ (status : Nat) (text : String) (body : Except String EmbBody),
        status ≠ 200 → test_embeddings (Outcome.resp status text body) =
          failEmbResult (httpError status text))) ∧
    ((∀ m, test_models_list (Outcome.otherExn m) = failModelsResult m) ∧
     (∀ m, test_chat_completion (Outcome.otherExn m) = failChatResult m) ∧
     (∀ m, test_stream_mode (Outcome.otherExn m) = failStreamResult m) ∧
     (∀ m, test_function_calling (Outcome.otherExn m) = failToolResult m) ∧
     (∀ m, test_embeddings (Outcome.otherExn m) = failEmbResult m)) ∧
    ((∀ m, test_models_list (Outcome.connError m) =
        failModelsResult ("连接错误: " ++ m)) ∧
     (∀ m, test_chat_completion (Outcome.connError m) = failChatResult m) ∧
     (∀ m, test_stream_mode (Outcome.connError m) = failStreamResult m) ∧
     (∀ m, test_function_calling (Outcome.connError m) = failToolResult m) ∧
     (∀ m, test_embeddings (Outcome.connError m) = failEmbResult m)) := by
  refine ⟨⟨rfl, rfl, rfl, rfl, rfl⟩, ⟨?_, ?_, ?_, ?_, ?_⟩,
    ⟨fun m => rfl, fun m => rfl, fun m => rfl, fun m => rfl, fun m => rfl⟩,
    ⟨fun m => rfl, fun m => rfl, fun m => rfl, fun m => rfl, fun m => rfl⟩⟩ <;>
  · intro status text body hs
    simp only [test_models_list, test_chat_completion, test_stream_mode,
      test_function_calling, test_embeddings, if_neg hs]

set_option maxRecDepth 10000 in
/-- Witness for C7 (amended), Scenario B: a 500 status with body
"internal error" yields the error string "HTTP 500: internal error". -/
theorem probe_error_reporting_witness :
    test_chat_completion (Outcome.resp 500 "internal error" (Except.error "x")) =
      failChatResult "HTTP 500: internal error" := by
  rw [probe_error_reporting.2.1.2.1 500 "internal error" (Except.error "x")
    (by decide)]
  rfl

/-! ### The success/error invariant -/

theorem classifyStream_success_no_error (st : StreamState) :
    (classifyStream st).success = true → (classifyStream st).error = none := by
  unfold classifyStream
  repeat' split
  all_goals intro h
  all_goals first
    | rfl
    | simp [initStreamResult] at h

/-- C8: no probe ever returns a result with `success=true` together with a
non-null `error` field, over every possible request outcome. -/
theorem probe_success_never_with_error :
    (∀ o : Outcome (Except String ModelsBody),
      (test_models_list o).success = true → (test_models_list o).error = none) ∧
    (∀ o : Outcome (Except String ChatBody),
      (test_chat_completion o).success = true → (test_chat_completion o).error = none) ∧
    (∀ o : Outcome (List (RawLine × Rat)),
      (test_stream_mode o).success = true → (test_stream_mode o).error = none) ∧
    (∀ o : Outcome (Except String ChatBody),
      (test_function_calling o).success = true → (test_function_calling o).error = none) ∧
    (∀ o : Outcome (Except String EmbBody),
      (test_embeddings o).success = true → (test_embeddings o).error = none) := by
  refine ⟨?_, ?_, ?_, ?_, ?_⟩
  · intro o h
    cases o with
    | resp status text body =>
      by_cases hs : status = 200
      · subst hs
        cases body with
        | ok d => rfl
        | error m => simp [test_models_list, failModelsResult] at h
      · simp [test_models_list, hs, failModelsResult] at h
    | timeout => simp [test_models_list, failModelsResult] at h
    | connError m => simp [test_models_list, failModelsResult] at h
    | otherExn m => simp [test_models_list, failModelsResult] at h
  · intro o h
    cases o with
    | resp status text body =>
      by_cases hs : status = 200
      · subst hs
        cases body with
        | ok d =>
          cases hc : chatContent d with
          | ok s => simp [test_chat_completion, hc]
          | error m => simp [test_chat_completion, hc, failChatResult] at h
        | error m => simp [test_chat_completion, failChatResult] at h
      · simp [test_chat_completion, hs, failChatResult] at h
    | timeout => simp [test_chat_completion, failChatResult] at h
    | connError m => simp [test_chat_completion, failChatResult] at h
    | otherExn m => simp [test_chat_completion, failChatResult] at h
  · intro o h
    cases o with
    | resp status text lines =>
      by_cases hs : status = 200
      · subst hs
        cases hr : readStream initStreamState lines with
        | ok st =>
          rw [test_stream_mode_ok lines text st hr] at h ⊢
          exact classifyStream_success_no_error st h
        | error m => simp [test_stream_mode, hr, failStreamResult, initStreamResult] at h
      · simp [test_stream_mode, hs, failStreamResult, initStreamResult] at h
    | timeout => simp [test_stream_mode, failStreamResult, initStreamResult] at h
    | connError m => simp [test_stream_mode, failStreamResult, initStreamResult] at h
    | otherExn m => simp [test_stream_mode, failStreamResult, initStreamResult] at h
  · intro o h
    cases o with
    | resp status text body =>
      by_cases hs : status = 200
      · subst hs
        cases body with
        | ok d =>
          cases hm : headMessage d with
          | ok msg =>
            cases htc : msg.tool_calls.getD [] with
            | cons tc l => simp [test_function_calling, hm, htc]
            | nil =>
              by_cases hcont : msg.content.getD "" ≠ ""
              · simp [test_function_calling, hm, htc, hcont]
              · simp [test_function_calling, hm, htc, hcont, failToolResult] at h
          | error m => simp [test_function_calling, hm, failToolResult] at h
        | error m => simp [test_function_calling, failToolResult] at h
      · simp [test_function_calling, hs, failToolResult] at h
    | timeout => simp [test_function_calling, failToolResult] at h
    | connError m => simp [test_function_calling, failToolResult] at h
    | otherExn m => simp [test_function_calling, failToolResult] at h
  · intro o h
    cases o with
    | resp status text body =>
      by_cases hs : status = 200
      · subst hs
        cases body with
        | ok d =>
          cases hd : d.data.getD [defaultEmbEntry] with
          | cons e l => simp [test_embeddings, hd]
          | nil => simp [test_embeddings, hd, failEmbResult] at h
        | error m => simp [test_embeddings, failEmbResult] at h
      · simp [test_embeddings, hs, failEmbResult] at h
    | timeout => simp [test_embeddings, failEmbResult] at h
    | connError m => simp [test_embeddings, failEmbResult] at h
    | otherExn m => simp [test_embeddings, failEmbResult] at h

/-- Witness for C8: a successful chat probe result has a null error field. -/
theorem probe_success_never_with_error_witness :
    (test_chat_completion (Outcome.resp 200 ""
      (Except.ok { choices := none }))).error = none :=
  probe_success_never_with_error.2.1
    (Outcome.resp 200 "" (Except.ok { choices := none })) rfl

/-! ### Result-store reset at the start of a test pass -/

/-- C9: at the start of a model's test pass the result store is rebuilt from
scratch: the models-list entry is carried over unchanged and every other probe
entry is discarded; in particular, after a full `test_single_model` pass the
models-list entry is still the old one and the embeddings entry (not re-run in
the pass) is gone. -/
theorem result_store_reset_keeps_only_models (s : ResultStore) (model : String)
    (chatO : Outcome (Except String ChatBody))
    (streamO : Outcome (List (RawLine × Rat)))
    (toolO : Outcome (Except String ChatBody)) :
    (resetResultsForModel s model).models_list = s.models_list ∧
    (resetResultsForModel s model).chat_completion = none ∧
    (resetResultsForModel s model).stream_mode = none ∧
    (resetResultsForModel s model).function_calling = none ∧
    (resetResultsForModel s model).embeddings = none ∧
    (resetResultsForModel s model).tested_model = some model ∧
    (test_single_model s model chatO streamO toolO).models_list = s.models_list ∧
    (test_single_model s model chatO streamO toolO).embeddings = none :=
  ⟨rfl, rfl, rfl, rfl, rfl, rfl, rfl, rfl⟩
